import Mathlib

/-!
Shallow embedding of the health-monitoring core of `gputop`
(`src/health.rs`).  Machine floats (`f32`) are modelled as rationals;
the comparisons and exact small-integer arithmetic the claims depend on
coincide.  `chrono::DateTime<Local>` is modelled as a rational number of
seconds; the ambient clock (`Local::now()`) and the local-midnight
computation are passed in as explicit parameters.  `f32::sqrt`, which is
used only inside the fragmentation heuristic and never compared by a
claim, is passed in as an arbitrary function parameter `sqrtQ`.
Human-readable `message` strings are display-only formatting of floats
and are not modelled.  `VecDeque` is modelled as a `List` with
`push_back` as append to the tail and `pop_front` as dropping the head.
-/

set_option maxRecDepth 8000

namespace GpuTop

/-- Health status tiers, `HealthStatus` in `src/health.rs`. -/
inductive HealthStatus where
  | Excellent
  | Good
  | Warning
  | Critical
deriving DecidableEq, Repr

/-- Alert kinds, `AlertType` in `src/health.rs`. -/
inductive AlertType where
  | TemperatureHigh
  | TemperatureCritical
  | ThermalThrottling
  | PowerSpike
  | MemoryLeakSuspected
  | ClockInstability
  | FanIssue
deriving DecidableEq, Repr

/-- `HealthAlert` of `src/health.rs` (the display-only `message` string
is not modelled). -/
structure HealthAlert where
  alert_type : AlertType
  severity : HealthStatus
  timestamp : ℚ
  value : Option ℚ
  threshold : Option ℚ
deriving DecidableEq, Repr

/-- `TemperatureMetrics` of `src/health.rs`. -/
structure TemperatureMetrics where
  current : ℚ
  max_safe : ℚ
  critical : ℚ
  trend_5min : ℚ
  time_above_80c : ℕ
  peak_today : ℚ
deriving DecidableEq, Repr

/-- `PowerMetrics` of `src/health.rs`. -/
structure PowerMetrics where
  current_draw : ℚ
  efficiency : ℚ
  power_spikes : ℕ
  avg_draw_1hr : ℚ
deriving DecidableEq, Repr

/-- `MemoryHealthMetrics` of `src/health.rs`. -/
structure MemoryHealthMetrics where
  usage_trend : ℚ
  fragmentation_score : ℚ
  leak_suspicion : ℚ
  peak_usage_today : ℕ
deriving DecidableEq, Repr

/-- `HealthSnapshot` of `src/health.rs`. -/
structure HealthSnapshot where
  timestamp : ℚ
  temperature : ℚ
  power_draw : ℚ
  memory_used : ℕ
  gpu_utilization : ℚ
  clock_speeds : ℕ × ℕ
  is_throttling : Bool
deriving DecidableEq, Repr

/-- `GpuHealthMetrics` of `src/health.rs`: the per-cycle report. -/
structure GpuHealthMetrics where
  overall_score : ℚ
  status : HealthStatus
  temperature : TemperatureMetrics
  power : PowerMetrics
  memory : MemoryHealthMetrics
  thermal_throttling_detected : Bool
  uptime_hours : ℚ
  alerts : List HealthAlert
deriving DecidableEq, Repr

/-- `HealthMonitor` state of `src/health.rs`: window, alert history and
the monitoring start time. -/
structure HealthMonitor where
  history_window : List HealthSnapshot
  alert_history : List HealthAlert
  monitoring_start : ℚ
deriving DecidableEq, Repr

/-- `HealthMonitor::new`: empty window and history, start time taken
from the ambient clock (explicit parameter `now`). -/
def HealthMonitor.new (now : ℚ) : HealthMonitor :=
  ⟨[], [], now⟩

/-- Push a batch at the tail and then pop from the front while length
exceeds `cap` — the `push_back` / `while len > cap { pop_front }` pattern
used for both the sample window and the alert history. -/
def appendEvict (cap : ℕ) (w xs : List α) : List α :=
  let w' := w ++ xs
  w'.drop (w'.length - cap)

/-- `chrono::Duration::num_minutes` of a duration given in seconds:
integer division truncated toward zero. -/
def numMinutes (secs : ℚ) : ℤ :=
  if 0 ≤ secs then ⌊secs / 60⌋ else -⌊-secs / 60⌋

/-- The snapshot built at the top of `HealthMonitor::update_metrics`
(lines 108–116): absent power and clock readings are substituted with 0. -/
def mkSnapshot (now : ℚ) (temperature : ℚ) (power_draw : Option ℚ)
    (memory_used : ℕ) (gpu_utilization : ℚ)
    (gpu_clock memory_clock : Option ℕ) (is_throttling : Bool) :
    HealthSnapshot :=
  { timestamp := now
    temperature := temperature
    power_draw := power_draw.getD 0
    memory_used := memory_used
    gpu_utilization := gpu_utilization
    clock_speeds := (gpu_clock.getD 0, memory_clock.getD 0)
    is_throttling := is_throttling }

/-- `HealthMonitor::calculate_temperature_metrics`.  `w` is the window
after the current snapshot has been appended; `today_start` is local
midnight of the date of the current sample. -/
def calculate_temperature_metrics (today_start : ℚ)
    (w : List HealthSnapshot) (current : HealthSnapshot) :
    TemperatureMetrics :=
  let temp := current.temperature
  let five_min_ago := current.timestamp - 5 * 60
  let trend_5min :=
    ((w.find? (fun s => decide (five_min_ago ≤ s.timestamp))).map
      (fun s => temp - s.temperature)).getD 0
  let time_above_80c := (w.filter (fun s => decide (80 < s.temperature))).length
  let peak_today :=
    ((w.filter (fun s => decide (today_start ≤ s.timestamp))).map
      (fun s => s.temperature)).foldl max temp
  { current := temp
    max_safe := 80
    critical := 90
    trend_5min := trend_5min
    time_above_80c := time_above_80c
    peak_today := peak_today }

/-- `HealthMonitor::calculate_power_metrics`.  `w` is the window after
the current snapshot has been appended. -/
def calculate_power_metrics (w : List HealthSnapshot)
    (current : HealthSnapshot) : PowerMetrics :=
  let power := current.power_draw
  let utilization := current.gpu_utilization
  let efficiency := if 0 < power then utilization / power else 0
  let r := w.reverse
  let power_spikes :=
    (((r.take 10).zip ((r.drop 1).take 10)).filter
      (fun cp => decide (20 < cp.1.power_draw - cp.2.power_draw))).length
  let avg_draw_1hr :=
    if w.isEmpty then power
    else (w.map (fun s => s.power_draw)).sum / (w.length : ℚ)
  { current_draw := power
    efficiency := efficiency
    power_spikes := power_spikes
    avg_draw_1hr := avg_draw_1hr }

/-- `HealthMonitor::calculate_memory_metrics`.  `sqrtQ` models
`f32::sqrt`; `w` is the window after the current snapshot has been
appended. -/
def calculate_memory_metrics (sqrtQ : ℚ → ℚ) (today_start : ℚ)
    (w : List HealthSnapshot) (current : HealthSnapshot)
    (total_memory : ℕ) : MemoryHealthMetrics :=
  let _ := total_memory
  let current_usage := current.memory_used
  let one_min_ago := current.timestamp - 1 * 60
  let usage_trend :=
    ((w.find? (fun s => decide (one_min_ago ≤ s.timestamp))).map
      (fun s => ((current_usage : ℚ) - (s.memory_used : ℚ)) / (1024 * 1024))).getD 0
  let usage_variance :=
    if 10 < w.length then
      let recent_usage := (w.reverse.take 60).map (fun s => (s.memory_used : ℚ))
      let mean := recent_usage.sum / (recent_usage.length : ℚ)
      let variance :=
        ((recent_usage.map (fun x => (x - mean) ^ 2)).sum) / (recent_usage.length : ℚ)
      min (sqrtQ variance / mean) 1
    else 0
  let leak_suspicion :=
    if 10 < usage_trend then min (usage_trend / 50) 1 else 0
  let peak_usage_today :=
    (((w.filter (fun s => decide (today_start ≤ s.timestamp))).map
      (fun s => s.memory_used)).max?).getD current_usage
  { usage_trend := usage_trend
    fragmentation_score := usage_variance
    leak_suspicion := leak_suspicion
    peak_usage_today := peak_usage_today }

/-- `HealthMonitor::calculate_overall_health_score`: sequential penalty
subtraction from a 100 base, then `score.max(0.0).min(100.0)`.  Each
`if cond { score -= k; }` statement (and each mutually exclusive
`else if` chain) is modelled as subtraction of a conditional penalty. -/
def calculate_overall_health_score (temp : TemperatureMetrics)
    (power : PowerMetrics) (memory : MemoryHealthMetrics)
    (is_throttling : Bool) : ℚ :=
  let score : ℚ := 100
  let score := score - (if 90 < temp.current then 30
    else if 85 < temp.current then 20
    else if 80 < temp.current then 10
    else 0)
  let score := score - (if 10 < temp.trend_5min then 15 else 0)
  let score := score - (if 1800 < temp.time_above_80c then 10 else 0)
  let score := score - (if is_throttling then 25 else 0)
  let score := score - (if 7/10 < memory.leak_suspicion then 20
    else if 3/10 < memory.leak_suspicion then 10
    else 0)
  let score := score - (if 7/10 < memory.fragmentation_score then 15 else 0)
  let score := score - (if power.efficiency < 1/2 then 10 else 0)
  let score := score - (if 5 < power.power_spikes then 5 else 0)
  min (max score 0) 100

/-- `HealthMonitor::determine_health_status`. -/
def determine_health_status (score : ℚ) (alerts : List HealthAlert) :
    HealthStatus :=
  let has_critical := alerts.any (fun a => decide (a.severity = HealthStatus.Critical))
  let has_warning := alerts.any (fun a => decide (a.severity = HealthStatus.Warning))
  if has_critical || decide (score < 30) then HealthStatus.Critical
  else if has_warning || decide (score < 60) then HealthStatus.Warning
  else if score < 85 then HealthStatus.Good
  else HealthStatus.Excellent

/-- `HealthMonitor::check_temperature_alerts`: the `&mut Vec` pushes are
modelled as the returned list, in push order. -/
def check_temperature_alerts (now : ℚ) (temp : TemperatureMetrics) :
    List HealthAlert :=
  (if temp.critical ≤ temp.current then
    [{ alert_type := AlertType.TemperatureCritical
       severity := HealthStatus.Critical
       timestamp := now
       value := some temp.current
       threshold := some temp.critical }]
  else if temp.max_safe ≤ temp.current then
    [{ alert_type := AlertType.TemperatureHigh
       severity := HealthStatus.Warning
       timestamp := now
       value := some temp.current
       threshold := some temp.max_safe }]
  else []) ++
  (if 15 < temp.trend_5min then
    [{ alert_type := AlertType.TemperatureHigh
       severity := HealthStatus.Warning
       timestamp := now
       value := some temp.trend_5min
       threshold := some 10 }]
  else [])

/-- `HealthMonitor::check_power_alerts`. -/
def check_power_alerts (now : ℚ) (power : PowerMetrics) :
    List HealthAlert :=
  if 10 < power.power_spikes then
    [{ alert_type := AlertType.PowerSpike
       severity := HealthStatus.Warning
       timestamp := now
       value := some (power.power_spikes : ℚ)
       threshold := some 5 }]
  else []

/-- `HealthMonitor::check_memory_alerts`. -/
def check_memory_alerts (now : ℚ) (memory : MemoryHealthMetrics) :
    List HealthAlert :=
  if 4/5 < memory.leak_suspicion then
    [{ alert_type := AlertType.MemoryLeakSuspected
       severity := HealthStatus.Warning
       timestamp := now
       value := some memory.leak_suspicion
       threshold := some (1/2) }]
  else []

/-- The throttling alert synthesized inline in `update_metrics`
(lines 136–145). -/
def throttling_alert (now : ℚ) (temperature : ℚ) : HealthAlert :=
  { alert_type := AlertType.ThermalThrottling
    severity := HealthStatus.Warning
    timestamp := now
    value := some temperature
    threshold := some 83 }

/-- `HealthMonitor::update_metrics`: one analysis cycle.  Returns the
per-cycle report together with the updated monitor state.  `now` is the
ambient clock, `today_start` local midnight of the current date, `sqrtQ`
models `f32::sqrt`. -/
def update_metrics (sqrtQ : ℚ → ℚ) (now today_start : ℚ)
    (st : HealthMonitor) (temperature : ℚ) (power_draw : Option ℚ)
    (memory_used memory_total : ℕ) (gpu_utilization : ℚ)
    (gpu_clock memory_clock : Option ℕ) (is_throttling : Bool) :
    GpuHealthMetrics × HealthMonitor :=
  let snapshot := mkSnapshot now temperature power_draw memory_used
    gpu_utilization gpu_clock memory_clock is_throttling
  let history_window := appendEvict 3600 st.history_window [snapshot]
  let temperature_metrics :=
    calculate_temperature_metrics today_start history_window snapshot
  let power_metrics := calculate_power_metrics history_window snapshot
  let memory_metrics :=
    calculate_memory_metrics sqrtQ today_start history_window snapshot memory_total
  let alerts :=
    check_temperature_alerts now temperature_metrics ++
    check_power_alerts now power_metrics ++
    check_memory_alerts now memory_metrics ++
    (if is_throttling then [throttling_alert now temperature] else [])
  let alert_history := appendEvict 100 st.alert_history alerts
  let overall_score := calculate_overall_health_score temperature_metrics
    power_metrics memory_metrics is_throttling
  let status := determine_health_status overall_score alerts
  let uptime := (numMinutes (now - st.monitoring_start) : ℚ) / 60
  (⟨overall_score, status, temperature_metrics, power_metrics,
    memory_metrics, is_throttling, uptime, alerts⟩,
   ⟨history_window, alert_history, st.monitoring_start⟩)

/-- `HealthMonitor::get_recent_alerts`: the most recent `limit` alerts,
newest first.  Takes `&self` in the source; pure function of the state
here. -/
def get_recent_alerts (st : HealthMonitor) (limit : ℕ) :
    List HealthAlert :=
  st.alert_history.reverse.take limit

/-- States reachable from `HealthMonitor::new` by any sequence of
`update_metrics` calls (over any clock values and any `sqrtQ`). -/
inductive Reachable : HealthMonitor → Prop where
  | new (now : ℚ) : Reachable (HealthMonitor.new now)
  | step (sqrtQ : ℚ → ℚ) (now today_start : ℚ) (st : HealthMonitor)
      (temperature : ℚ) (power_draw : Option ℚ)
      (memory_used memory_total : ℕ) (gpu_utilization : ℚ)
      (gpu_clock memory_clock : Option ℕ) (is_throttling : Bool) :
      Reachable st →
      Reachable (update_metrics sqrtQ now today_start st temperature
        power_draw memory_used memory_total gpu_utilization gpu_clock
        memory_clock is_throttling).2

/-! ## Theorems -/

/-- Clamping from above first and below second equals clamping below
first and above second when the bounds are ordered. -/
theorem min_max_clamp_comm (s : ℚ) :
    min (max s 0) 100 = max 0 (min 100 s) := by
  rcases le_total s 0 with h | h <;> rcases le_total s 100 with h' | h' <;>
    simp [min_def, max_def] <;> split_ifs <;> linarith

/-- C1: the overall health score equals 100 minus the sum of the
triggered penalties, clamped to [0,100]; in particular it is always
between 0 and 100. -/
theorem overall_score_is_clamped_penalty_sum (temp : TemperatureMetrics)
    (power : PowerMetrics) (memory : MemoryHealthMetrics)
    (is_throttling : Bool) :
    calculate_overall_health_score temp power memory is_throttling =
      max 0 (min 100 (100 -
        ((if 90 < temp.current then (30 : ℚ)
          else if 85 < temp.current then 20
          else if 80 < temp.current then 10 else 0) +
         (if 10 < temp.trend_5min then 15 else 0) +
         (if 1800 < temp.time_above_80c then 10 else 0) +
         (if is_throttling then 25 else 0) +
         (if 7/10 < memory.leak_suspicion then 20
          else if 3/10 < memory.leak_suspicion then 10 else 0) +
         (if 7/10 < memory.fragmentation_score then 15 else 0) +
         (if power.efficiency < 1/2 then 10 else 0) +
         (if 5 < power.power_spikes then 5 else 0)))) ∧
    0 ≤ calculate_overall_health_score temp power memory is_throttling ∧
    calculate_overall_health_score temp power memory is_throttling ≤ 100 := by
  have heq : calculate_overall_health_score temp power memory is_throttling =
      max 0 (min 100 (100 -
        ((if 90 < temp.current then (30 : ℚ)
          else if 85 < temp.current then 20
          else if 80 < temp.current then 10 else 0) +
         (if 10 < temp.trend_5min then 15 else 0) +
         (if 1800 < temp.time_above_80c then 10 else 0) +
         (if is_throttling then 25 else 0) +
         (if 7/10 < memory.leak_suspicion then 20
          else if 3/10 < memory.leak_suspicion then 10 else 0) +
         (if 7/10 < memory.fragmentation_score then 15 else 0) +
         (if power.efficiency < 1/2 then 10 else 0) +
         (if 5 < power.power_spikes then 5 else 0)))) := by
    simp only [calculate_overall_health_score]
    rw [sub_sub, sub_sub, sub_sub, sub_sub, sub_sub, sub_sub, sub_sub,
      min_max_clamp_comm]
    ring_nf
  refine ⟨heq, ?_, ?_⟩
  · rw [heq]; exact le_max_left _ _
  · rw [heq]; exact max_le (by norm_num) (min_le_left _ _)

/-- C2: the reported status is Critical if any alert is Critical or the
score is below 30; otherwise Warning if any alert is Warning or the
score is below 60; otherwise Good below 85; otherwise Excellent.  A
Critical alert forces Critical status regardless of score, and a
Warning alert forces at least Warning status even at score ≥ 60. -/
theorem determine_health_status_spec (score : ℚ) (alerts : List HealthAlert) :
    (determine_health_status score alerts =
      if (∃ a ∈ alerts, a.severity = HealthStatus.Critical) ∨ score < 30 then
        HealthStatus.Critical
      else if (∃ a ∈ alerts, a.severity = HealthStatus.Warning) ∨ score < 60 then
        HealthStatus.Warning
      else if score < 85 then HealthStatus.Good
      else HealthStatus.Excellent) ∧
    ((∃ a ∈ alerts, a.severity = HealthStatus.Critical) →
      determine_health_status score alerts = HealthStatus.Critical) ∧
    ((∃ a ∈ alerts, a.severity = HealthStatus.Warning) →
      determine_health_status score alerts = HealthStatus.Warning ∨
      determine_health_status score alerts = HealthStatus.Critical) := by
  have hc : (alerts.any (fun a => decide (a.severity = HealthStatus.Critical)) = true) ↔
      (∃ a ∈ alerts, a.severity = HealthStatus.Critical) := by simp
  have hw : (alerts.any (fun a => decide (a.severity = HealthStatus.Warning)) = true) ↔
      (∃ a ∈ alerts, a.severity = HealthStatus.Warning) := by simp
  have heq : determine_health_status score alerts =
      if (∃ a ∈ alerts, a.severity = HealthStatus.Critical) ∨ score < 30 then
        HealthStatus.Critical
      else if (∃ a ∈ alerts, a.severity = HealthStatus.Warning) ∨ score < 60 then
        HealthStatus.Warning
      else if score < 85 then HealthStatus.Good
      else HealthStatus.Excellent := by
    simp only [determine_health_status, Bool.or_eq_true, decide_eq_true_eq, hc, hw]
  refine ⟨heq, ?_, ?_⟩
  · intro h
    rw [heq, if_pos (Or.inl h)]
  · intro h
    rw [heq]
    by_cases h30 : (∃ a ∈ alerts, a.severity = HealthStatus.Critical) ∨ score < 30
    · rw [if_pos h30]; exact Or.inr rfl
    · rw [if_neg h30, if_pos (Or.inl h)]; exact Or.inl rfl

/-- Witness for C2 at a concrete Critical alert and a concrete Warning
alert. -/
theorem determine_health_status_spec_witness :
    (∃ a ∈ [({ alert_type := AlertType.TemperatureCritical,
               severity := HealthStatus.Critical, timestamp := 0,
               value := some 95, threshold := some 90 } : HealthAlert)],
      a.severity = HealthStatus.Critical) ∧
    determine_health_status 100
      [({ alert_type := AlertType.TemperatureCritical,
          severity := HealthStatus.Critical, timestamp := 0,
          value := some 95, threshold := some 90 } : HealthAlert)] =
      HealthStatus.Critical := by
  refine ⟨⟨_, List.mem_singleton_self _, rfl⟩, ?_⟩
  exact (determine_health_status_spec 100 _).2.1 ⟨_, List.mem_singleton_self _, rfl⟩

/-- Length after append-then-evict: the minimum of the combined length
and the capacity. -/
theorem appendEvict_length (cap : ℕ) (w xs : List α) :
    (appendEvict cap w xs).length = min (w.length + xs.length) cap := by
  simp only [appendEvict, List.length_drop, List.length_append]
  omega

/-- Folding single-element append-then-evict steps over a batch keeps
exactly the newest `cap` elements: all but the last `cap` elements are
dropped, in order. -/
theorem appendEvict_foldl (cap : ℕ) (xs : List α) : ∀ (w : List α),
    w.length ≤ cap →
    List.foldl (fun acc x => appendEvict cap acc [x]) w xs =
      (w ++ xs).drop ((w.length + xs.length) - cap) := by
  induction xs with
  | nil =>
    intro w h
    simp [Nat.sub_eq_zero_of_le h]
  | cons x t ih =>
    intro w h
    have hlen : (appendEvict cap w [x]).length ≤ cap := by
      rw [appendEvict_length]; omega
    rw [List.foldl_cons, ih _ hlen]
    have hd1 : (w.length + 1) - cap ≤ (w ++ [x]).length := by
      simp
    simp only [appendEvict, List.length_append, List.length_singleton,
      List.length_drop]
    rw [← List.drop_append_of_le_length hd1, List.drop_drop,
      List.append_assoc, List.singleton_append]
    congr 1
    simp only [List.length_append, List.length_singleton, List.length_cons]
    omega

/-- C3: the window and alert-history bounds (3600 and 100) hold after
every `update_metrics` call; the updated window and history arise from
the old ones by append-then-FIFO-evict; and after `3600 + k` appends to
an empty window the oldest `k` samples are gone and the rest remain in
insertion order. -/
theorem update_metrics_bounds_and_fifo (sqrtQ : ℚ → ℚ)
    (now today_start : ℚ) (st : HealthMonitor) (temperature : ℚ)
    (power_draw : Option ℚ) (memory_used memory_total : ℕ)
    (gpu_utilization : ℚ) (gpu_clock memory_clock : Option ℕ)
    (is_throttling : Bool) :
    ((update_metrics sqrtQ now today_start st temperature power_draw
        memory_used memory_total gpu_utilization gpu_clock memory_clock
        is_throttling).2.history_window.length ≤ 3600 ∧
     (update_metrics sqrtQ now today_start st temperature power_draw
        memory_used memory_total gpu_utilization gpu_clock memory_clock
        is_throttling).2.alert_history.length ≤ 100) ∧
    (update_metrics sqrtQ now today_start st temperature power_draw
        memory_used memory_total gpu_utilization gpu_clock memory_clock
        is_throttling).2.history_window =
      appendEvict 3600 st.history_window
        [mkSnapshot now temperature power_draw memory_used
          gpu_utilization gpu_clock memory_clock is_throttling] ∧
    (update_metrics sqrtQ now today_start st temperature power_draw
        memory_used memory_total gpu_utilization gpu_clock memory_clock
        is_throttling).2.alert_history =
      appendEvict 100 st.alert_history
        (update_metrics sqrtQ now today_start st temperature power_draw
          memory_used memory_total gpu_utilization gpu_clock memory_clock
          is_throttling).1.alerts ∧
    (∀ (xs : List HealthSnapshot) (k : ℕ), xs.length = 3600 + k →
      List.foldl (fun acc x => appendEvict 3600 acc [x]) [] xs = xs.drop k) := by
  have hw : (update_metrics sqrtQ now today_start st temperature
      power_draw memory_used memory_total gpu_utilization gpu_clock
      memory_clock is_throttling).2.history_window =
      appendEvict 3600 st.history_window
        [mkSnapshot now temperature power_draw memory_used
          gpu_utilization gpu_clock memory_clock is_throttling] := by
    simp only [update_metrics]
  have ha : (update_metrics sqrtQ now today_start st temperature
      power_draw memory_used memory_total gpu_utilization gpu_clock
      memory_clock is_throttling).2.alert_history =
      appendEvict 100 st.alert_history
        (update_metrics sqrtQ now today_start st temperature power_draw
          memory_used memory_total gpu_utilization gpu_clock memory_clock
          is_throttling).1.alerts := by
    simp only [update_metrics]
  refine ⟨⟨?_, ?_⟩, hw, ha, ?_⟩
  · rw [hw, appendEvict_length]
    omega
  · rw [ha, appendEvict_length]
    omega
  · intro xs k hk
    rw [appendEvict_foldl 3600 xs [] (by simp)]
    simp [hk]

/-- A nominal snapshot used to exercise theorems at concrete inputs. -/
def sampleSnapshot : HealthSnapshot :=
  ⟨0, 70, 0, 0, 0, (0, 0), false⟩

/-- Witness for C3: the FIFO characterization applied to 3601 appends. -/
theorem update_metrics_bounds_and_fifo_witness :
    (List.replicate 3601 sampleSnapshot).length = 3600 + 1 ∧
    List.foldl (fun acc x => appendEvict 3600 acc [x]) []
        (List.replicate 3601 sampleSnapshot) =
      (List.replicate 3601 sampleSnapshot).drop 1 :=
  ⟨by rw [List.length_replicate],
   (update_metrics_bounds_and_fifo (fun _ => 0) 0 0 (HealthMonitor.new 0)
      0 none 0 0 0 none none false).2.2.2
     (List.replicate 3601 sampleSnapshot) 1 (by rw [List.length_replicate])⟩

/-- Membership characterization for the temperature alert rules. -/
theorem mem_check_temperature_alerts (now : ℚ) (tm : TemperatureMetrics)
    (a : HealthAlert) :
    a ∈ check_temperature_alerts now tm ↔
      ((tm.critical ≤ tm.current ∧
        a = ⟨AlertType.TemperatureCritical, HealthStatus.Critical, now,
          some tm.current, some tm.critical⟩) ∨
       (¬ tm.critical ≤ tm.current ∧ tm.max_safe ≤ tm.current ∧
        a = ⟨AlertType.TemperatureHigh, HealthStatus.Warning, now,
          some tm.current, some tm.max_safe⟩) ∨
       (15 < tm.trend_5min ∧
        a = ⟨AlertType.TemperatureHigh, HealthStatus.Warning, now,
          some tm.trend_5min, some 10⟩)) := by
  by_cases h1 : tm.critical ≤ tm.current <;>
  by_cases h2 : tm.max_safe ≤ tm.current <;>
  by_cases h3 : 15 < tm.trend_5min <;>
    simp [check_temperature_alerts, h1, h2, h3]

/-- Membership characterization for the power alert rule. -/
theorem mem_check_power_alerts (now : ℚ) (pm : PowerMetrics)
    (a : HealthAlert) :
    a ∈ check_power_alerts now pm ↔
      (10 < pm.power_spikes ∧
       a = ⟨AlertType.PowerSpike, HealthStatus.Warning, now,
         some (pm.power_spikes : ℚ), some 5⟩) := by
  simp only [check_power_alerts]
  split_ifs with h <;> simp_all

/-- Membership characterization for the memory alert rule. -/
theorem mem_check_memory_alerts (now : ℚ) (mm : MemoryHealthMetrics)
    (a : HealthAlert) :
    a ∈ check_memory_alerts now mm ↔
      (4/5 < mm.leak_suspicion ∧
       a = ⟨AlertType.MemoryLeakSuspected, HealthStatus.Warning, now,
         some mm.leak_suspicion, some (1/2)⟩) := by
  simp only [check_memory_alerts]
  split_ifs with h <;> simp_all

/-- The alert list of the report is the concatenation of the four rule
groups, evaluated on the derived metrics of the post-append window. -/
theorem report_alerts_decompose (sqrtQ : ℚ → ℚ) (now today_start : ℚ)
    (st : HealthMonitor) (temperature : ℚ) (power_draw : Option ℚ)
    (memory_used memory_total : ℕ) (gpu_utilization : ℚ)
    (gpu_clock memory_clock : Option ℕ) (is_throttling : Bool) :
    (update_metrics sqrtQ now today_start st temperature power_draw
        memory_used memory_total gpu_utilization gpu_clock memory_clock
        is_throttling).1.alerts =
      check_temperature_alerts now
        (calculate_temperature_metrics today_start
          (appendEvict 3600 st.history_window
            [mkSnapshot now temperature power_draw memory_used
              gpu_utilization gpu_clock memory_clock is_throttling])
          (mkSnapshot now temperature power_draw memory_used
            gpu_utilization gpu_clock memory_clock is_throttling)) ++
      check_power_alerts now
        (calculate_power_metrics
          (appendEvict 3600 st.history_window
            [mkSnapshot now temperature power_draw memory_used
              gpu_utilization gpu_clock memory_clock is_throttling])
          (mkSnapshot now temperature power_draw memory_used
            gpu_utilization gpu_clock memory_clock is_throttling)) ++
      check_memory_alerts now
        (calculate_memory_metrics sqrtQ today_start
          (appendEvict 3600 st.history_window
            [mkSnapshot now temperature power_draw memory_used
              gpu_utilization gpu_clock memory_clock is_throttling])
          (mkSnapshot now temperature power_draw memory_used
            gpu_utilization gpu_clock memory_clock is_throttling)
          memory_total) ++
      (if is_throttling then [throttling_alert now temperature] else []) := by
  simp only [update_metrics]

/-- The three derived-metric structs of the report are the analyzers applied
to the post-append window and the new snapshot. -/
theorem report_fields_eq (sqrtQ : ℚ → ℚ) (now today_start : ℚ)
    (st : HealthMonitor) (temperature : ℚ) (power_draw : Option ℚ)
    (memory_used memory_total : ℕ) (gpu_utilization : ℚ)
    (gpu_clock memory_clock : Option ℕ) (is_throttling : Bool) :
    (update_metrics sqrtQ now today_start st temperature power_draw
        memory_used memory_total gpu_utilization gpu_clock memory_clock
        is_throttling).1.temperature =
      calculate_temperature_metrics today_start
        (appendEvict 3600 st.history_window
          [mkSnapshot now temperature power_draw memory_used
            gpu_utilization gpu_clock memory_clock is_throttling])
        (mkSnapshot now temperature power_draw memory_used
          gpu_utilization gpu_clock memory_clock is_throttling) ∧
    (update_metrics sqrtQ now today_start st temperature power_draw
        memory_used memory_total gpu_utilization gpu_clock memory_clock
        is_throttling).1.power =
      calculate_power_metrics
        (appendEvict 3600 st.history_window
          [mkSnapshot now temperature power_draw memory_used
            gpu_utilization gpu_clock memory_clock is_throttling])
        (mkSnapshot now temperature power_draw memory_used
          gpu_utilization gpu_clock memory_clock is_throttling) ∧
    (update_metrics sqrtQ now today_start st temperature power_draw
        memory_used memory_total gpu_utilization gpu_clock memory_clock
        is_throttling).1.memory =
      calculate_memory_metrics sqrtQ today_start
        (appendEvict 3600 st.history_window
          [mkSnapshot now temperature power_draw memory_used
            gpu_utilization gpu_clock memory_clock is_throttling])
        (mkSnapshot now temperature power_draw memory_used
          gpu_utilization gpu_clock memory_clock is_throttling)
        memory_total := by
  refine ⟨?_, ?_, ?_⟩ <;> simp only [update_metrics]

/-- The count of power spikes is bounded by the number of examined
pairs, which is at most 10. -/
theorem power_spikes_le_ten (w : List HealthSnapshot)
    (current : HealthSnapshot) :
    (calculate_power_metrics w current).power_spikes ≤ 10 := by
  simp only [calculate_power_metrics]
  have h1 := List.length_filter_le
    (fun cp : HealthSnapshot × HealthSnapshot =>
      decide (20 < cp.1.power_draw - cp.2.power_draw))
    ((w.reverse.take 10).zip ((w.reverse.drop 1).take 10))
  have h2 : ((w.reverse.take 10).zip ((w.reverse.drop 1).take 10)).length ≤ 10 := by
    rw [List.length_zip]
    simp only [List.length_take]
    omega
  omega

/-- The updated alert history is the old one with the alerts of this cycle
appended and the oldest entries evicted beyond 100. -/
theorem alert_history_after_update (sqrtQ : ℚ → ℚ) (now today_start : ℚ)
    (st : HealthMonitor) (temperature : ℚ) (power_draw : Option ℚ)
    (memory_used memory_total : ℕ) (gpu_utilization : ℚ)
    (gpu_clock memory_clock : Option ℕ) (is_throttling : Bool) :
    (update_metrics sqrtQ now today_start st temperature power_draw
        memory_used memory_total gpu_utilization gpu_clock memory_clock
        is_throttling).2.alert_history =
      appendEvict 100 st.alert_history
        (update_metrics sqrtQ now today_start st temperature power_draw
          memory_used memory_total gpu_utilization gpu_clock memory_clock
          is_throttling).1.alerts := by
  simp only [update_metrics]

/-- C4: at most 10 sample-pairs are ever examined, so `power_spikes`
never exceeds 10; hence the PowerSpike rule never fires: no cycle
report contains a PowerSpike alert and no reachable state has one in
its alert history. -/
theorem power_spike_alert_never_fires :
    (∀ (w : List HealthSnapshot) (current : HealthSnapshot),
      (calculate_power_metrics w current).power_spikes ≤ 10) ∧
    (∀ (now : ℚ) (w : List HealthSnapshot) (current : HealthSnapshot),
      check_power_alerts now (calculate_power_metrics w current) = []) ∧
    (∀ (sqrtQ : ℚ → ℚ) (now today_start : ℚ) (st : HealthMonitor)
      (temperature : ℚ) (power_draw : Option ℚ)
      (memory_used memory_total : ℕ) (gpu_utilization : ℚ)
      (gpu_clock memory_clock : Option ℕ) (is_throttling : Bool),
      ∀ a ∈ (update_metrics sqrtQ now today_start st temperature
        power_draw memory_used memory_total gpu_utilization gpu_clock
        memory_clock is_throttling).1.alerts,
        a.alert_type ≠ AlertType.PowerSpike) ∧
    (∀ st : HealthMonitor, Reachable st →
      ∀ a ∈ st.alert_history, a.alert_type ≠ AlertType.PowerSpike) := by
  have hempty : ∀ (now : ℚ) (w : List HealthSnapshot)
      (current : HealthSnapshot),
      check_power_alerts now (calculate_power_metrics w current) = [] := by
    intro now w current
    have h := power_spikes_le_ten w current
    simp only [check_power_alerts]
    rw [if_neg (Nat.not_lt.mpr h)]
  have hreport : ∀ (sqrtQ : ℚ → ℚ) (now today_start : ℚ)
      (st : HealthMonitor) (temperature : ℚ) (power_draw : Option ℚ)
      (memory_used memory_total : ℕ) (gpu_utilization : ℚ)
      (gpu_clock memory_clock : Option ℕ) (is_throttling : Bool),
      ∀ a ∈ (update_metrics sqrtQ now today_start st temperature
        power_draw memory_used memory_total gpu_utilization gpu_clock
        memory_clock is_throttling).1.alerts,
        a.alert_type ≠ AlertType.PowerSpike := by
    intro sqrtQ now today_start st temperature power_draw memory_used
      memory_total gpu_utilization gpu_clock memory_clock is_throttling a ha
    rw [report_alerts_decompose, hempty] at ha
    simp only [List.append_nil, List.mem_append] at ha
    rcases ha with (ht | hm) | hthr
    · rcases (mem_check_temperature_alerts _ _ _).mp ht with
        ⟨_, rfl⟩ | ⟨_, _, rfl⟩ | ⟨_, rfl⟩ <;> simp
    · rcases (mem_check_memory_alerts _ _ _).mp hm with ⟨_, rfl⟩
      simp
    · split_ifs at hthr with h
      · simp only [List.mem_singleton] at hthr
        subst hthr
        simp [throttling_alert]
      · simp at hthr
  refine ⟨power_spikes_le_ten, hempty, hreport, ?_⟩
  intro st hr
  induction hr with
  | new now =>
    intro a ha
    simp [HealthMonitor.new] at ha
  | step sqrtQ now today_start st' temperature power_draw memory_used
      memory_total gpu_utilization gpu_clock memory_clock is_throttling
      hst ih =>
    intro a ha
    rw [alert_history_after_update] at ha
    simp only [appendEvict] at ha
    rcases List.mem_append.mp (List.mem_of_mem_drop ha) with h | h
    · exact ih a h
    · exact hreport _ _ _ _ _ _ _ _ _ _ _ _ a h

/-- One concrete update on a fresh monitor at temperature 95: its alert
history holds exactly the critical-temperature alert. -/
def demoState : HealthMonitor :=
  (update_metrics (fun _ => 0) 0 0 (HealthMonitor.new 0) 95 none 0 0 0
    none none false).2

/-- The alert generated by the `demoState` update. -/
def demoAlert : HealthAlert :=
  ⟨AlertType.TemperatureCritical, HealthStatus.Critical, 0, some 95,
    some 90⟩

/-- The demo update generates exactly the critical-temperature alert. -/
theorem demo_alerts_eq :
    (update_metrics (fun _ => 0) 0 0 (HealthMonitor.new 0) 95 none 0 0 0
      none none false).1.alerts = [demoAlert] := by
  norm_num [update_metrics, HealthMonitor.new, mkSnapshot, appendEvict,
    calculate_temperature_metrics, calculate_power_metrics,
    calculate_memory_metrics, check_temperature_alerts, check_power_alerts,
    check_memory_alerts, throttling_alert, demoAlert, List.find?]

/-- The alert history of the demo state holds the generated alert. -/
theorem demo_alert_mem : demoAlert ∈ demoState.alert_history := by
  have h : demoState.alert_history =
      appendEvict 100 (HealthMonitor.new 0).alert_history
        (update_metrics (fun _ => 0) 0 0 (HealthMonitor.new 0) 95 none 0 0
          0 none none false).1.alerts :=
    alert_history_after_update (fun _ => 0) 0 0 (HealthMonitor.new 0) 95
      none 0 0 0 none none false
  rw [h, demo_alerts_eq]
  simp [appendEvict, HealthMonitor.new]

/-- Witness for C4 on the concrete reachable state `demoState`. -/
theorem power_spike_alert_never_fires_witness :
    demoAlert ∈ demoState.alert_history ∧
    demoAlert.alert_type ≠ AlertType.PowerSpike :=
  ⟨demo_alert_mem,
   power_spike_alert_never_fires.2.2.2 demoState
     (Reachable.step (fun _ => 0) 0 0 (HealthMonitor.new 0) 95 none 0 0 0
       none none false (Reachable.new 0))
     demoAlert demo_alert_mem⟩

/-- C5 counterexample: at temperature metrics with current 70 and
trend_5min 16 the only alert generated is that of the rapid-rise rule (which
fires when trend_5min > 15), and it carries threshold 10, not 15. -/
theorem alert_threshold_counterexample :
    (check_temperature_alerts 0 ⟨70, 80, 90, 16, 0, 70⟩).map
      HealthAlert.threshold = [some 10] ∧
    some (10 : ℚ) ≠ some (15 : ℚ) := by
  constructor
  · norm_num [check_temperature_alerts]
  · norm_num

/-- The demo alert is a member of the report alerts of the demo cycle. -/
theorem demo_alert_mem_report :
    demoAlert ∈ (update_metrics (fun _ => 0) 0 0 (HealthMonitor.new 0) 95
      none 0 0 0 none none false).1.alerts := by
  rw [demo_alerts_eq]
  exact List.mem_singleton_self _

/-- C5 (amended): every generated alert carries the triggering value in
`value`, while `threshold` carries the per-rule stored constant: 90 for
TemperatureCritical, 80 for the temperature-level TemperatureHigh, 10
for the rapid-rise TemperatureHigh, 5 for PowerSpike, 1/2 for
MemoryLeakSuspected, and 83 for ThermalThrottling (whose `value` is the
current temperature). -/
theorem alert_value_threshold_fields (sqrtQ : ℚ → ℚ)
    (now today_start : ℚ) (st : HealthMonitor) (temperature : ℚ)
    (power_draw : Option ℚ) (memory_used memory_total : ℕ)
    (gpu_utilization : ℚ) (gpu_clock memory_clock : Option ℕ)
    (is_throttling : Bool) :
    ∀ a ∈ (update_metrics sqrtQ now today_start st temperature power_draw
      memory_used memory_total gpu_utilization gpu_clock memory_clock
      is_throttling).1.alerts,
      (a.alert_type = AlertType.TemperatureCritical →
        a.value = some (update_metrics sqrtQ now today_start st
          temperature power_draw memory_used memory_total gpu_utilization
          gpu_clock memory_clock is_throttling).1.temperature.current ∧
        a.threshold = some 90) ∧
      (a.alert_type = AlertType.TemperatureHigh →
        (a.value = some (update_metrics sqrtQ now today_start st
          temperature power_draw memory_used memory_total gpu_utilization
          gpu_clock memory_clock is_throttling).1.temperature.current ∧
         a.threshold = some 80) ∨
        (a.value = some (update_metrics sqrtQ now today_start st
          temperature power_draw memory_used memory_total gpu_utilization
          gpu_clock memory_clock is_throttling).1.temperature.trend_5min ∧
         a.threshold = some 10)) ∧
      (a.alert_type = AlertType.PowerSpike →
        a.value = some ((update_metrics sqrtQ now today_start st
          temperature power_draw memory_used memory_total gpu_utilization
          gpu_clock memory_clock is_throttling).1.power.power_spikes : ℚ) ∧
        a.threshold = some 5) ∧
      (a.alert_type = AlertType.MemoryLeakSuspected →
        a.value = some (update_metrics sqrtQ now today_start st
          temperature power_draw memory_used memory_total gpu_utilization
          gpu_clock memory_clock is_throttling).1.memory.leak_suspicion ∧
        a.threshold = some (1/2)) ∧
      (a.alert_type = AlertType.ThermalThrottling →
        a.value = some temperature ∧ a.threshold = some 83) := by
  intro a ha
  rw [(report_fields_eq sqrtQ now today_start st temperature power_draw
      memory_used memory_total gpu_utilization gpu_clock memory_clock
      is_throttling).1,
    (report_fields_eq sqrtQ now today_start st temperature power_draw
      memory_used memory_total gpu_utilization gpu_clock memory_clock
      is_throttling).2.1,
    (report_fields_eq sqrtQ now today_start st temperature power_draw
      memory_used memory_total gpu_utilization gpu_clock memory_clock
      is_throttling).2.2]
  rw [report_alerts_decompose] at ha
  simp only [List.mem_append] at ha
  rcases ha with ((ht | hp) | hm) | hthr
  · rcases (mem_check_temperature_alerts _ _ _).mp ht with
      ⟨_, rfl⟩ | ⟨_, _, rfl⟩ | ⟨_, rfl⟩ <;>
      simp [calculate_temperature_metrics]
  · rcases (mem_check_power_alerts _ _ _).mp hp with ⟨_, rfl⟩
    simp
  · rcases (mem_check_memory_alerts _ _ _).mp hm with ⟨_, rfl⟩
    simp
  · split_ifs at hthr with h
    · simp only [List.mem_singleton] at hthr
      subst hthr
      simp [throttling_alert]
    · simp at hthr

/-- Witness for C5 (amended) on the critical alert of the demo cycle. -/
theorem alert_value_threshold_fields_witness :
    demoAlert ∈ (update_metrics (fun _ => 0) 0 0 (HealthMonitor.new 0) 95
      none 0 0 0 none none false).1.alerts ∧
    (demoAlert.value = some (update_metrics (fun _ => 0) 0 0
      (HealthMonitor.new 0) 95 none 0 0 0 none none
      false).1.temperature.current ∧
     demoAlert.threshold = some 90) :=
  ⟨demo_alert_mem_report,
   (alert_value_threshold_fields (fun _ => 0) 0 0 (HealthMonitor.new 0)
     95 none 0 0 0 none none false demoAlert demo_alert_mem_report).1 rfl⟩

/-- The temperature analyzer always reports the fixed critical
threshold 90. -/
theorem calc_temp_critical (today_start : ℚ) (w : List HealthSnapshot)
    (snap : HealthSnapshot) :
    (calculate_temperature_metrics today_start w snap).critical = 90 := by
  simp only [calculate_temperature_metrics]

/-- The temperature analyzer always reports the fixed max-safe
threshold 80. -/
theorem calc_temp_max_safe (today_start : ℚ) (w : List HealthSnapshot)
    (snap : HealthSnapshot) :
    (calculate_temperature_metrics today_start w snap).max_safe = 80 := by
  simp only [calculate_temperature_metrics]

/-- C6: the alert list of the cycle holds exactly the alerts whose rule
conditions hold, in the fixed order: temperature level (Critical at
current ≥ 90, else Warning at current ≥ 80), rapid rise (Warning at
trend_5min > 15), power (Warning at power_spikes > 10), memory (Warning
at leak_suspicion > 0.8), throttling (Warning when flagged); every
assigned severity is Warning or Critical. -/
theorem report_alerts_exact (sqrtQ : ℚ → ℚ) (now today_start : ℚ)
    (st : HealthMonitor) (temperature : ℚ) (power_draw : Option ℚ)
    (memory_used memory_total : ℕ) (gpu_utilization : ℚ)
    (gpu_clock memory_clock : Option ℕ) (is_throttling : Bool) :
    ((update_metrics sqrtQ now today_start st temperature power_draw
        memory_used memory_total gpu_utilization gpu_clock memory_clock
        is_throttling).1.alerts =
      (if 90 ≤ (update_metrics sqrtQ now today_start st temperature
          power_draw memory_used memory_total gpu_utilization gpu_clock
          memory_clock is_throttling).1.temperature.current then
        [{ alert_type := AlertType.TemperatureCritical
           severity := HealthStatus.Critical
           timestamp := now
           value := some (update_metrics sqrtQ now today_start st
             temperature power_draw memory_used memory_total
             gpu_utilization gpu_clock memory_clock
             is_throttling).1.temperature.current
           threshold := some 90 }]
      else if 80 ≤ (update_metrics sqrtQ now today_start st temperature
          power_draw memory_used memory_total gpu_utilization gpu_clock
          memory_clock is_throttling).1.temperature.current then
        [{ alert_type := AlertType.TemperatureHigh
           severity := HealthStatus.Warning
           timestamp := now
           value := some (update_metrics sqrtQ now today_start st
             temperature power_draw memory_used memory_total
             gpu_utilization gpu_clock memory_clock
             is_throttling).1.temperature.current
           threshold := some 80 }]
      else []) ++
      (if 15 < (update_metrics sqrtQ now today_start st temperature
          power_draw memory_used memory_total gpu_utilization gpu_clock
          memory_clock is_throttling).1.temperature.trend_5min then
        [{ alert_type := AlertType.TemperatureHigh
           severity := HealthStatus.Warning
           timestamp := now
           value := some (update_metrics sqrtQ now today_start st
             temperature power_draw memory_used memory_total
             gpu_utilization gpu_clock memory_clock
             is_throttling).1.temperature.trend_5min
           threshold := some 10 }]
      else []) ++
      (if 10 < (update_metrics sqrtQ now today_start st temperature
          power_draw memory_used memory_total gpu_utilization gpu_clock
          memory_clock is_throttling).1.power.power_spikes then
        [{ alert_type := AlertType.PowerSpike
           severity := HealthStatus.Warning
           timestamp := now
           value := some ((update_metrics sqrtQ now today_start st
             temperature power_draw memory_used memory_total
             gpu_utilization gpu_clock memory_clock
             is_throttling).1.power.power_spikes : ℚ)
           threshold := some 5 }]
      else []) ++
      (if 4/5 < (update_metrics sqrtQ now today_start st temperature
          power_draw memory_used memory_total gpu_utilization gpu_clock
          memory_clock is_throttling).1.memory.leak_suspicion then
        [{ alert_type := AlertType.MemoryLeakSuspected
           severity := HealthStatus.Warning
           timestamp := now
           value := some (update_metrics sqrtQ now today_start st
             temperature power_draw memory_used memory_total
             gpu_utilization gpu_clock memory_clock
             is_throttling).1.memory.leak_suspicion
           threshold := some (1/2) }]
      else []) ++
      (if is_throttling then
        [{ alert_type := AlertType.ThermalThrottling
           severity := HealthStatus.Warning
           timestamp := now
           value := some temperature
           threshold := some 83 }]
      else [])) ∧
    (∀ a ∈ (update_metrics sqrtQ now today_start st temperature
        power_draw memory_used memory_total gpu_utilization gpu_clock
        memory_clock is_throttling).1.alerts,
      a.severity = HealthStatus.Warning ∨
      a.severity = HealthStatus.Critical) := by
  constructor
  · rw [report_alerts_decompose,
      (report_fields_eq sqrtQ now today_start st temperature power_draw
        memory_used memory_total gpu_utilization gpu_clock memory_clock
        is_throttling).1,
      (report_fields_eq sqrtQ now today_start st temperature power_draw
        memory_used memory_total gpu_utilization gpu_clock memory_clock
        is_throttling).2.1,
      (report_fields_eq sqrtQ now today_start st temperature power_draw
        memory_used memory_total gpu_utilization gpu_clock memory_clock
        is_throttling).2.2]
    simp only [check_temperature_alerts, check_power_alerts,
      check_memory_alerts, throttling_alert]
    rw [calc_temp_critical, calc_temp_max_safe]
  · intro a ha
    rw [report_alerts_decompose] at ha
    simp only [List.mem_append] at ha
    rcases ha with ((ht | hp) | hm) | hthr
    · rcases (mem_check_temperature_alerts _ _ _).mp ht with
        ⟨_, rfl⟩ | ⟨_, _, rfl⟩ | ⟨_, rfl⟩ <;> simp
    · rcases (mem_check_power_alerts _ _ _).mp hp with ⟨_, rfl⟩
      simp
    · rcases (mem_check_memory_alerts _ _ _).mp hm with ⟨_, rfl⟩
      simp
    · split_ifs at hthr with h
      · simp only [List.mem_singleton] at hthr
        subst hthr
        simp [throttling_alert]
      · simp at hthr

/-- Witness for C6 on the critical alert of the demo cycle. -/
theorem report_alerts_exact_witness :
    demoAlert ∈ (update_metrics (fun _ => 0) 0 0 (HealthMonitor.new 0) 95
      none 0 0 0 none none false).1.alerts ∧
    (demoAlert.severity = HealthStatus.Warning ∨
     demoAlert.severity = HealthStatus.Critical) :=
  ⟨demo_alert_mem_report,
   (report_alerts_exact (fun _ => 0) 0 0 (HealthMonitor.new 0) 95 none 0
     0 0 none none false).2 demoAlert demo_alert_mem_report⟩

/-- C7: `power_spikes` counts, among the 10 most recent adjacent
sample-pairs of the window (newest first), those where the power draw
of the newer sample exceeds that of the older one by more than 20; older
pairs are never examined. -/
theorem power_spikes_counts_recent_pairs (w : List HealthSnapshot)
    (current : HealthSnapshot) :
    (calculate_power_metrics w current).power_spikes =
      (((w.reverse.zip w.reverse.tail).take 10).filter
        (fun cp => decide (20 < cp.1.power_draw - cp.2.power_draw))).length := by
  simp only [calculate_power_metrics, List.zip_eq_zipWith, List.drop_one,
    List.take_zipWith]

/-- Projection of the temperature analyzer onto its trend field. -/
theorem calc_temp_trend (today_start : ℚ) (w : List HealthSnapshot)
    (current : HealthSnapshot) :
    (calculate_temperature_metrics today_start w current).trend_5min =
      ((w.find? (fun s =>
          decide (current.timestamp - 5 * 60 ≤ s.timestamp))).map
        (fun s => current.temperature - s.temperature)).getD 0 := by
  simp only [calculate_temperature_metrics]

/-- The first list element satisfying a predicate, with everything
before it failing, is what `find?` returns. -/
theorem find_first_of_split {α : Type _} (p : α → Bool) (l₁ l₂ : List α)
    (s : α) (h₁ : ∀ x ∈ l₁, ¬ p x) (hs : p s) :
    (l₁ ++ s :: l₂).find? p = some s := by
  induction l₁ with
  | nil => simp [List.find?_cons_of_pos _ hs]
  | cons a t ih =>
    rw [List.cons_append,
      List.find?_cons_of_neg _ (h₁ a (List.mem_cons_self a t))]
    exact ih fun x hx => h₁ x (List.mem_cons_of_mem a hx)

/-- C8: `trend_5min` is the current temperature minus the temperature
of the first window sample (scanning oldest to newest) whose timestamp
is within the last 5 minutes, and 0 when no sample qualifies. -/
theorem trend_5min_spec (today_start : ℚ) (w : List HealthSnapshot)
    (current : HealthSnapshot) :
    ((∀ s ∈ w, s.timestamp < current.timestamp - 5 * 60) →
      (calculate_temperature_metrics today_start w current).trend_5min = 0) ∧
    (∀ (l₁ l₂ : List HealthSnapshot) (s : HealthSnapshot),
      w = l₁ ++ s :: l₂ →
      (∀ x ∈ l₁, x.timestamp < current.timestamp - 5 * 60) →
      current.timestamp - 5 * 60 ≤ s.timestamp →
      (calculate_temperature_metrics today_start w current).trend_5min =
        current.temperature - s.temperature) := by
  constructor
  · intro h
    rw [calc_temp_trend]
    have hn : w.find? (fun s =>
        decide (current.timestamp - 5 * 60 ≤ s.timestamp)) = none :=
      List.find?_eq_none.mpr fun x hx => by
        simpa using not_le.mpr (h x hx)
    rw [hn]
    rfl
  · intro l₁ l₂ s hw h₁ hs
    subst hw
    rw [calc_temp_trend,
      find_first_of_split _ l₁ l₂ s
        (fun x hx => by simpa using not_le.mpr (h₁ x hx))
        (by simpa using hs)]
    rfl

/-- Witness for C8: a one-sample window whose sample lies inside the
5-minute bound. -/
theorem trend_5min_spec_witness :
    ([(⟨0, 70, 0, 0, 0, (0, 0), false⟩ : HealthSnapshot)] =
      [] ++ (⟨0, 70, 0, 0, 0, (0, 0), false⟩ : HealthSnapshot) :: []) ∧
    ((100 : ℚ) - 5 * 60 ≤ 0) ∧
    (calculate_temperature_metrics 0
        [(⟨0, 70, 0, 0, 0, (0, 0), false⟩ : HealthSnapshot)]
        (⟨100, 90, 0, 0, 0, (0, 0), false⟩ : HealthSnapshot)).trend_5min =
      90 - 70 :=
  ⟨rfl, by norm_num,
   (trend_5min_spec 0 [⟨0, 70, 0, 0, 0, (0, 0), false⟩]
      ⟨100, 90, 0, 0, 0, (0, 0), false⟩).2 [] []
     ⟨0, 70, 0, 0, 0, (0, 0), false⟩ rfl
     (fun x hx => absurd hx (List.not_mem_nil x)) (by norm_num)⟩

/-- C9: `get_recent_alerts` returns the most recent
`min limit (history length)` alerts of the persisted history, newest
first, without touching the monitor state. -/
theorem get_recent_alerts_spec (st : HealthMonitor) (n : ℕ) :
    (get_recent_alerts st n).length = min n st.alert_history.length ∧
    (∀ i, i < (get_recent_alerts st n).length →
      (get_recent_alerts st n)[i]? =
        st.alert_history[st.alert_history.length - 1 - i]?) := by
  constructor
  · simp [get_recent_alerts]
  · intro i hi
    simp only [get_recent_alerts, List.length_take, List.length_reverse] at hi
    have h1 : i < n := by omega
    have h2 : i < st.alert_history.length := by omega
    simp only [get_recent_alerts]
    rw [List.getElem?_take_of_lt h1,
      List.getElem?_reverse (by simpa using h2)]

/-- Witness for C9 on a one-alert history. -/
theorem get_recent_alerts_spec_witness :
    0 < (get_recent_alerts ⟨[], [demoAlert], 0⟩ 1).length ∧
    (get_recent_alerts ⟨[], [demoAlert], 0⟩ 1)[0]? = some demoAlert :=
  ⟨by simp [get_recent_alerts],
   (get_recent_alerts_spec ⟨[], [demoAlert], 0⟩ 1).2 0
     (by simp [get_recent_alerts])⟩

/-- C10: `update_metrics` is total: an absent power reading (and absent
clock readings) is substituted with 0, giving the same cycle as an
explicit zero reading, and the efficiency division is guarded — it is
`utilization / power` only when power > 0, and 0 otherwise (in
particular at power 0). -/
theorem update_total_and_guarded (sqrtQ : ℚ → ℚ)
    (now today_start : ℚ) (st : HealthMonitor) (t : ℚ) (pd : Option ℚ)
    (mu mt : ℕ) (u : ℚ) (gc mc : Option ℕ) (thr : Bool)
    (w : List HealthSnapshot) (s : HealthSnapshot) :
    (mkSnapshot now t pd mu u gc mc thr).power_draw = pd.getD 0 ∧
    (mkSnapshot now t pd mu u gc mc thr).clock_speeds =
      (gc.getD 0, mc.getD 0) ∧
    update_metrics sqrtQ now today_start st t none mu mt u none none thr =
      update_metrics sqrtQ now today_start st t (some 0) mu mt u (some 0)
        (some 0) thr ∧
    (calculate_power_metrics w s).efficiency =
      (if 0 < s.power_draw then s.gpu_utilization / s.power_draw else 0) ∧
    (s.power_draw = 0 → (calculate_power_metrics w s).efficiency = 0) := by
  refine ⟨rfl, rfl, ?_, ?_, ?_⟩
  · simp only [update_metrics, mkSnapshot, Option.getD_none, Option.getD_some]
  · simp only [calculate_power_metrics]
  · intro h
    simp only [calculate_power_metrics, h, lt_irrefl, if_false]

/-- Witness for C10 at a zero-power snapshot. -/
theorem update_total_and_guarded_witness :
    sampleSnapshot.power_draw = 0 ∧
    (calculate_power_metrics [] sampleSnapshot).efficiency = 0 :=
  ⟨rfl,
   (update_total_and_guarded (fun _ => 0) 0 0 (HealthMonitor.new 0) 0
     none 0 0 0 none none false [] sampleSnapshot).2.2.2.2 rfl⟩

end GpuTop
